import Mathlib

/-!
Shallow embedding of `src/frontend/src/App.jsx` (Inboxly application shell):
the persisted key-value store (localStorage), the theme provider, the auth
provider (`checkAuthStatus`, `login`, `logout`) and the route guard
(`ProtectedRoute`), together with theorems checking the specification's
testable properties against this embedding.
-/

namespace Inboxly

/-- The persisted key-value store (localStorage), modelled as an association
list of string keys to string values. -/
abbrev Store := List (String × String)

/-- `localStorage.getItem(k)`: the value stored under `k`, if any. -/
def getItem (st : Store) (k : String) : Option String :=
  (st.find? (fun p => p.1 == k)).map (fun p => p.2)

/-- `localStorage.removeItem(k)`: delete every binding of key `k`. -/
def removeItem (st : Store) (k : String) : Store :=
  st.filter (fun p => p.1 != k)

/-- `localStorage.setItem(k, v)`: bind `k` to `v`, replacing any previous
binding. -/
def setItem (st : Store) (k v : String) : Store :=
  (k, v) :: removeItem st k

/-- Opaque user record returned by the backend; its shape is not interpreted
by the component beyond being stored. -/
structure UserRecord where
  body : String
deriving DecidableEq, Repr

/-- The combined in-memory state of the two context providers in `App.jsx`:
the auth provider's `isAuthenticated`, `user`, `loading` useState hooks, the
theme provider's `isDark` hook, and the shared persisted store. -/
structure AppState where
  isAuthenticated : Bool
  user : Option UserRecord
  loading : Bool
  isDark : Bool
  store : Store
deriving DecidableEq, Repr

/-- The key `App.jsx` persists the session token under. -/
def tokenKey : String := "inboxly-token"

/-- The key `App.jsx` persists the theme preference under. -/
def themeKey : String := "inboxly-theme"

/-- State of the providers right after mount, before any effect has run:
`useState(false)`, `useState(null)`, `useState(true)` in the auth provider
and `useState(true)` in the theme provider. -/
def mountState (st : Store) : AppState :=
  { isAuthenticated := false
    user := none
    loading := true
    isDark := true
    store := st }

/-- Possible outcomes of the `fetch` to the verification endpoint, as
distinguished by `checkAuthStatus`: a success-status response whose body
parses as JSON (`ok (some u)`), a success-status response whose body fails
to parse (`ok none`, making `response.json()` throw), a non-success status
(`notOk`), or a transport-level failure making `fetch` itself throw
(`networkError`). -/
inductive VerifyResponse where
  | ok (parsedBody : Option UserRecord)
  | notOk
  | networkError
deriving DecidableEq, Repr

/-- Observable side effects of one run of `checkAuthStatus`: whether the
verification request was issued, whether `console.error` was reached in the
catch block, and how many times `setLoading(false)` ran. -/
structure CheckEffects where
  networkCalled : Bool
  errorLogged : Bool
  loadingSetFalseCount : Nat
deriving DecidableEq, Repr

/-- JS truthiness of the `token` binding in `checkAuthStatus`
(`const token = localStorage.getItem(...)` followed by `if (token)`):
`null` and the empty string are falsy, every other string is truthy. -/
def tokenTruthy : Option String → Bool
  | none => false
  | some t => t != ""

/-- The `checkAuthStatus` effect of the auth provider: read the persisted
token; if it is truthy (`if (token)`, so `null` and the empty string both
fail the guard), verify it against the backend, on a success response parse
the body and set `isAuthenticated`/`user`, on a non-success response remove
the persisted token, and on a thrown error (transport failure, or
`response.json()` failing) log it; in every case the `finally` block sets
`loading` to `false` exactly once. -/
def checkAuthStatus (s : AppState) (resp : VerifyResponse) :
    AppState × CheckEffects :=
  if tokenTruthy (getItem s.store tokenKey) then
      match resp with
      | VerifyResponse.ok (some userData) =>
          ({ s with isAuthenticated := true, user := some userData, loading := false },
           { networkCalled := true, errorLogged := false, loadingSetFalseCount := 1 })
      | VerifyResponse.ok none =>
          ({ s with loading := false },
           { networkCalled := true, errorLogged := true, loadingSetFalseCount := 1 })
      | VerifyResponse.notOk =>
          ({ s with store := removeItem s.store tokenKey, loading := false },
           { networkCalled := true, errorLogged := false, loadingSetFalseCount := 1 })
      | VerifyResponse.networkError =>
          ({ s with loading := false },
           { networkCalled := true, errorLogged := true, loadingSetFalseCount := 1 })
  else
      ({ s with loading := false },
       { networkCalled := false, errorLogged := false, loadingSetFalseCount := 1 })

/-- `login(token, userData)` of the auth provider: persist the token, set
`isAuthenticated` to `true` and `user` to the supplied record. -/
def login (s : AppState) (token : String) (userData : UserRecord) : AppState :=
  { s with
      store := setItem s.store tokenKey token
      isAuthenticated := true
      user := some userData }

/-- `logout()` of the auth provider: delete the persisted token, set
`isAuthenticated` to `false` and `user` to `null`. -/
def logout (s : AppState) : AppState :=
  { s with
      store := removeItem s.store tokenKey
      isAuthenticated := false
      user := none }

/-- The canonical persisted encoding of the in-memory `isDark` flag, as
written by the theme provider's effect: `isDark ? "dark" : "light"`. -/
def encodeTheme (isDark : Bool) : String :=
  if isDark then "dark" else "light"

/-- The theme provider's initialization effect: read the persisted theme
string; if it is exactly `"light"` the flag becomes `false`, if exactly
`"dark"` it becomes `true`, and otherwise (any other value, or absence) the
`useState(true)` default is retained. -/
def themeInitIsDark (st : Store) : Bool :=
  match getItem st themeKey with
  | some savedTheme =>
      if savedTheme == "light" then false
      else if savedTheme == "dark" then true
      else true
  | none => true

/-- `toggleTheme()` of the theme provider: flip `isDark`; the `[isDark]`
effect then writes the canonical string back to the persisted store. -/
def toggleTheme (s : AppState) : AppState :=
  { s with
      isDark := !s.isDark
      store := setItem s.store themeKey (encodeTheme (!s.isDark)) }

/-- What `ProtectedRoute` renders: the loading spinner, its wrapped
children, or a `Navigate` element with a target route and the `replace`
flag. -/
inductive RenderResult (α : Type) where
  | spinner
  | content (children : α)
  | navigate (target : String) (replace : Bool)
deriving DecidableEq, Repr

/-- The `ProtectedRoute` component: while `loading` it renders the spinner;
afterwards it renders its children if `isAuthenticated`, and otherwise a
`Navigate` to `/auth` with `replace`. -/
def ProtectedRoute {α : Type} (s : AppState) (children : α) : RenderResult α :=
  if s.loading then RenderResult.spinner
  else if s.isAuthenticated then RenderResult.content children
  else RenderResult.navigate "/auth" true

/-- Session states reachable through the operations of the auth provider:
the freshly mounted state, the state after the mount-time verification
resolves, and any state obtained from a reachable one by `login` or
`logout`. -/
inductive Reachable : AppState → Prop where
  | mounted (st : Store) : Reachable (mountState st)
  | verified (st : Store) (resp : VerifyResponse) :
      Reachable (checkAuthStatus (mountState st) resp).1
  | did_login (s : AppState) (t : String) (u : UserRecord) :
      Reachable s → Reachable (login s t u)
  | did_logout (s : AppState) :
      Reachable s → Reachable (logout s)

/-- Unfolding `getItem` over a non-empty store. -/
theorem getItem_cons (p : String × String) (l : Store) (k : String) :
    getItem (p :: l) k = if p.1 == k then some p.2 else getItem l k := by
  cases h : (p.1 == k) <;> simp [getItem, List.find?, h]

/-- Unfolding `removeItem` over a non-empty store. -/
theorem removeItem_cons (p : String × String) (l : Store) (k : String) :
    removeItem (p :: l) k =
      if p.1 == k then removeItem l k else p :: removeItem l k := by
  cases h : (p.1 == k)
  · have hne : p.1 ≠ k := by simpa using h
    simp [removeItem, List.filter_cons, h, hne]
  · have heq : p.1 = k := by simpa using h
    simp [removeItem, List.filter_cons, h, heq]

/-- Looking up the key just removed yields nothing. -/
theorem getItem_removeItem_self (st : Store) (k : String) :
    getItem (removeItem st k) k = none := by
  induction st with
  | nil => rfl
  | cons p rest ih =>
      rw [removeItem_cons]
      cases h : (p.1 == k)
      · rw [if_neg (by simp [h]), getItem_cons, if_neg (by simp [h])]
        exact ih
      · rw [if_pos (by simp [h])]
        exact ih

/-- Removing one key does not change the value stored under another. -/
theorem getItem_removeItem_ne (st : Store) (k j : String) (h : j ≠ k) :
    getItem (removeItem st k) j = getItem st j := by
  induction st with
  | nil => rfl
  | cons p rest ih =>
      rw [removeItem_cons, getItem_cons]
      cases hk : (p.1 == k)
      · rw [if_neg (by simp [hk]), getItem_cons]
        cases hj : (p.1 == j) <;> simp [hj, ih]
      · have hpj : (p.1 == j) = false := by
          have hpk : p.1 = k := by simpa using hk
          simp [hpk]
          exact fun hkj => h hkj.symm
        rw [if_pos (by simp [hk]), if_neg (by simp [hpj])]
        exact ih

/-- Looking up the key just written yields the written value. -/
theorem getItem_setItem_self (st : Store) (k v : String) :
    getItem (setItem st k v) k = some v := by
  rw [setItem, getItem_cons]
  simp

/-- Writing one key does not change the value stored under another. -/
theorem getItem_setItem_ne (st : Store) (k j v : String) (h : j ≠ k) :
    getItem (setItem st k v) j = getItem st j := by
  rw [setItem, getItem_cons, if_neg (by simp; exact fun hkj => h hkj.symm)]
  exact getItem_removeItem_ne st k j h

/-- Removing an absent key leaves the store unchanged. -/
theorem removeItem_eq_self_of_getItem_none (st : Store) (k : String)
    (h : getItem st k = none) : removeItem st k = st := by
  induction st with
  | nil => rfl
  | cons p rest ih =>
      rw [getItem_cons] at h
      cases hk : (p.1 == k)
      · rw [if_neg (by simp [hk])] at h
        rw [removeItem_cons, if_neg (by simp [hk]), ih h]
      · rw [if_pos (by simp [hk])] at h
        exact absurd h (by simp)

/-- C1: For every initial mount where the persisted store holds a token
(a non-empty string, i.e. one that passes the source's `if (token)`
truthiness guard) and the verification endpoint responds with a success
status and a parseable user body, the session resolves to
`loading = false`, `isAuthenticated = true`, and `user` equal to the
parsed response body. -/
theorem checkAuthStatus_success_authenticates (st : Store) (t : String)
    (u : UserRecord) (htok : getItem st tokenKey = some t) (hne : t ≠ "") :
    ((checkAuthStatus (mountState st) (VerifyResponse.ok (some u))).1.loading = false) ∧
    ((checkAuthStatus (mountState st) (VerifyResponse.ok (some u))).1.isAuthenticated = true) ∧
    ((checkAuthStatus (mountState st) (VerifyResponse.ok (some u))).1.user = some u) := by
  simp [checkAuthStatus, mountState, tokenTruthy, htok, hne]

/-- Witness for C1 at the concrete store `[(inboxly-token, abc)]`. -/
theorem checkAuthStatus_success_authenticates_witness :
    getItem [(tokenKey, "abc")] tokenKey = some "abc" ∧
    "abc" ≠ "" ∧
    ((checkAuthStatus (mountState [(tokenKey, "abc")])
        (VerifyResponse.ok (some ⟨"Al"⟩))).1.loading = false) ∧
    ((checkAuthStatus (mountState [(tokenKey, "abc")])
        (VerifyResponse.ok (some ⟨"Al"⟩))).1.isAuthenticated = true) ∧
    ((checkAuthStatus (mountState [(tokenKey, "abc")])
        (VerifyResponse.ok (some ⟨"Al"⟩))).1.user = some ⟨"Al"⟩) :=
  ⟨rfl, by decide,
   checkAuthStatus_success_authenticates [(tokenKey, "abc")] "abc" ⟨"Al"⟩ rfl
     (by decide)⟩

/-- C2: For every initial mount where the persisted store holds a token
(a non-empty string, passing the source's `if (token)` truthiness guard)
and the verification endpoint responds with a non-success status, the
session resolves to `isAuthenticated = false` and the persisted token key
is deleted from the store. -/
theorem checkAuthStatus_reject_clears_token (st : Store) (t : String)
    (htok : getItem st tokenKey = some t) (hne : t ≠ "") :
    ((checkAuthStatus (mountState st) VerifyResponse.notOk).1.isAuthenticated = false) ∧
    (getItem (checkAuthStatus (mountState st) VerifyResponse.notOk).1.store tokenKey
      = none) := by
  simp [checkAuthStatus, mountState, tokenTruthy, htok, hne,
    getItem_removeItem_self]

/-- Witness for C2 at the concrete store `[(inboxly-token, abc)]`. -/
theorem checkAuthStatus_reject_clears_token_witness :
    getItem [(tokenKey, "abc")] tokenKey = some "abc" ∧
    "abc" ≠ "" ∧
    ((checkAuthStatus (mountState [(tokenKey, "abc")])
        VerifyResponse.notOk).1.isAuthenticated = false) ∧
    (getItem (checkAuthStatus (mountState [(tokenKey, "abc")])
        VerifyResponse.notOk).1.store tokenKey = none) :=
  ⟨rfl, by decide,
   checkAuthStatus_reject_clears_token [(tokenKey, "abc")] "abc" rfl (by decide)⟩

/-- C3: For every initial mount where the persisted store holds no token,
the session resolves to `loading = false` and `isAuthenticated = false`,
and no verification network request is issued. -/
theorem checkAuthStatus_no_token_skips_network (st : Store)
    (resp : VerifyResponse) (htok : getItem st tokenKey = none) :
    ((checkAuthStatus (mountState st) resp).1.loading = false) ∧
    ((checkAuthStatus (mountState st) resp).1.isAuthenticated = false) ∧
    ((checkAuthStatus (mountState st) resp).2.networkCalled = false) := by
  simp [checkAuthStatus, mountState, tokenTruthy, htok]

/-- Witness for C3 at the empty store. -/
theorem checkAuthStatus_no_token_skips_network_witness :
    getItem [] tokenKey = none ∧
    ((checkAuthStatus (mountState []) VerifyResponse.notOk).1.loading = false) ∧
    ((checkAuthStatus (mountState []) VerifyResponse.notOk).1.isAuthenticated = false) ∧
    ((checkAuthStatus (mountState []) VerifyResponse.notOk).2.networkCalled = false) :=
  ⟨rfl, checkAuthStatus_no_token_skips_network [] VerifyResponse.notOk rfl⟩

/-- C4: For every session state, the route guard decision is: while
`loading` it renders the waiting spinner; once `loading` is `false` it
renders the wrapped protected content exactly when `isAuthenticated`, and
otherwise a redirect to `/auth` with history replacement. -/
theorem ProtectedRoute_decision {α : Type} (s : AppState) (c : α) :
    (s.loading = true → ProtectedRoute s c = RenderResult.spinner) ∧
    (s.loading = false → s.isAuthenticated = true →
      ProtectedRoute s c = RenderResult.content c) ∧
    (s.loading = false → s.isAuthenticated = false →
      ProtectedRoute s c = RenderResult.navigate "/auth" true) := by
  refine ⟨fun hl => ?_, fun hl ha => ?_, fun hl ha => ?_⟩
  · simp [ProtectedRoute, hl]
  · simp [ProtectedRoute, hl, ha]
  · simp [ProtectedRoute, hl, ha]

/-- Witness for C4 at three concrete session states, one per branch. -/
theorem ProtectedRoute_decision_witness :
    ProtectedRoute (mountState []) 0 = RenderResult.spinner ∧
    ProtectedRoute ⟨true, some ⟨"Al"⟩, false, true, []⟩ 0 = RenderResult.content 0 ∧
    ProtectedRoute ⟨false, none, false, true, []⟩ 0
      = RenderResult.navigate "/auth" true :=
  ⟨(ProtectedRoute_decision (mountState []) 0).1 rfl,
   (ProtectedRoute_decision ⟨true, some ⟨"Al"⟩, false, true, []⟩ 0).2.1 rfl rfl,
   (ProtectedRoute_decision ⟨false, none, false, true, []⟩ 0).2.2 rfl rfl⟩

/-- C5: For every initial mount with a persisted token (a non-empty
string, passing the source's `if (token)` truthiness guard) where the
verification request fails at the transport or parse level, the persisted
store (and hence the token) is left untouched, the failure is logged,
`isAuthenticated` remains `false`, and `loading` is set to `false` exactly
once. -/
theorem checkAuthStatus_error_preserves_token (st : Store) (t : String)
    (resp : VerifyResponse) (htok : getItem st tokenKey = some t)
    (hne : t ≠ "")
    (herr : resp = VerifyResponse.networkError ∨ resp = VerifyResponse.ok none) :
    ((checkAuthStatus (mountState st) resp).1.store = st) ∧
    ((checkAuthStatus (mountState st) resp).2.errorLogged = true) ∧
    ((checkAuthStatus (mountState st) resp).1.isAuthenticated = false) ∧
    ((checkAuthStatus (mountState st) resp).2.loadingSetFalseCount = 1) := by
  rcases herr with h | h <;> subst h <;>
    simp [checkAuthStatus, mountState, tokenTruthy, htok, hne]

/-- Witness for C5 at the concrete store `[(inboxly-token, abc)]` with a
transport failure. -/
theorem checkAuthStatus_error_preserves_token_witness :
    getItem [(tokenKey, "abc")] tokenKey = some "abc" ∧
    "abc" ≠ "" ∧
    ((checkAuthStatus (mountState [(tokenKey, "abc")])
        VerifyResponse.networkError).1.store = [(tokenKey, "abc")]) ∧
    ((checkAuthStatus (mountState [(tokenKey, "abc")])
        VerifyResponse.networkError).2.errorLogged = true) ∧
    ((checkAuthStatus (mountState [(tokenKey, "abc")])
        VerifyResponse.networkError).1.isAuthenticated = false) ∧
    ((checkAuthStatus (mountState [(tokenKey, "abc")])
        VerifyResponse.networkError).2.loadingSetFalseCount = 1) :=
  ⟨rfl, by decide,
   checkAuthStatus_error_preserves_token [(tokenKey, "abc")] "abc"
     VerifyResponse.networkError rfl (by decide) (Or.inl rfl)⟩

/-- C6: In every session state reachable through initialization,
verification resolution, login, and logout, `isAuthenticated = true`
implies the user record is present. -/
theorem reachable_auth_implies_user (s : AppState) (h : Reachable s) :
    s.isAuthenticated = true → s.user.isSome = true := by
  induction h with
  | mounted st =>
      intro ha
      simp [mountState] at ha
  | verified st resp =>
      intro ha
      cases htok : tokenTruthy (getItem st tokenKey) with
      | false => simp [checkAuthStatus, mountState, htok] at ha
      | true =>
          cases resp with
          | ok b =>
              cases b with
              | none => simp [checkAuthStatus, mountState, htok] at ha
              | some u => simp [checkAuthStatus, mountState, htok]
          | notOk => simp [checkAuthStatus, mountState, htok] at ha
          | networkError => simp [checkAuthStatus, mountState, htok] at ha
  | did_login s t u hr ih =>
      intro _
      simp [login]
  | did_logout s hr ih =>
      intro ha
      simp [logout] at ha

/-- Witness for C6 at the state reached by logging in from a fresh mount. -/
theorem reachable_auth_implies_user_witness :
    (login (mountState []) "abc" ⟨"Al"⟩).user.isSome = true :=
  reachable_auth_implies_user (login (mountState []) "abc" ⟨"Al"⟩)
    (Reachable.did_login (mountState []) "abc" ⟨"Al"⟩ (Reachable.mounted [])) rfl

/-- C7: Calling `logout()` in a session state that is already
unauthenticated, with no user and no persisted token, leaves the session
state and the persisted store unchanged. -/
theorem logout_idempotent_when_unauthenticated (s : AppState)
    (h1 : s.isAuthenticated = false) (h2 : s.user = none)
    (h3 : getItem s.store tokenKey = none) :
    logout s = s := by
  cases s with
  | mk ia u l d st =>
      simp only [logout] at h1 h2 h3 ⊢
      subst h1
      subst h2
      simp [removeItem_eq_self_of_getItem_none st tokenKey h3]

/-- Witness for C7 at a concrete unauthenticated state with an unrelated
key in the store. -/
theorem logout_idempotent_when_unauthenticated_witness :
    logout ⟨false, none, false, true, [(themeKey, "dark")]⟩
      = ⟨false, none, false, true, [(themeKey, "dark")]⟩ :=
  logout_idempotent_when_unauthenticated
    ⟨false, none, false, true, [(themeKey, "dark")]⟩ rfl rfl rfl

/-- C8: For every theme state, calling `toggleTheme()` twice returns
`isDark` to its original value, and after each single toggle the persisted
theme string equals the canonical encoding of the in-memory `isDark`
value. -/
theorem toggleTheme_round_trip (s : AppState) :
    ((toggleTheme (toggleTheme s)).isDark = s.isDark) ∧
    (getItem (toggleTheme s).store themeKey
      = some (encodeTheme (toggleTheme s).isDark)) ∧
    (getItem (toggleTheme (toggleTheme s)).store themeKey
      = some (encodeTheme (toggleTheme (toggleTheme s)).isDark)) := by
  refine ⟨by simp [toggleTheme], ?_, ?_⟩ <;>
    simp [toggleTheme, getItem_setItem_self]

/-- C9: At theme initialization, a persisted value of exactly `light`
yields `isDark = false`, exactly `dark` yields `isDark = true`, and any
other value, including absence, retains the default `isDark = true`. -/
theorem themeInit_decodes (st : Store) :
    themeInitIsDark st =
      (if getItem st themeKey = some "light" then false
       else if getItem st themeKey = some "dark" then true
       else true) := by
  cases h : getItem st themeKey with
  | none => simp [themeInitIsDark, h]
  | some v =>
      by_cases hl : v = "light"
      · simp [themeInitIsDark, h, hl]
      · by_cases hd : v = "dark"
        · simp [themeInitIsDark, h, hd]
        · simp [themeInitIsDark, h, hl, hd]

/-- C10: Theme and session state do not interfere: `toggleTheme` leaves
`isAuthenticated`, `user`, `loading`, and the persisted token key
unchanged, and `login`/`logout` leave `isDark` and the persisted theme key
unchanged. -/
theorem theme_session_no_interference (s : AppState) (t : String)
    (u : UserRecord) :
    ((toggleTheme s).isAuthenticated = s.isAuthenticated) ∧
    ((toggleTheme s).user = s.user) ∧
    ((toggleTheme s).loading = s.loading) ∧
    (getItem (toggleTheme s).store tokenKey = getItem s.store tokenKey) ∧
    ((login s t u).isDark = s.isDark) ∧
    (getItem (login s t u).store themeKey = getItem s.store themeKey) ∧
    ((logout s).isDark = s.isDark) ∧
    (getItem (logout s).store themeKey = getItem s.store themeKey) := by
  refine ⟨rfl, rfl, rfl, ?_, rfl, ?_, rfl, ?_⟩
  · exact getItem_setItem_ne s.store themeKey tokenKey
      (encodeTheme (!s.isDark)) (by decide)
  · exact getItem_setItem_ne s.store tokenKey themeKey t (by decide)
  · exact getItem_removeItem_ne s.store tokenKey themeKey (by decide)

end Inboxly
